import Mathlib

/- Shallow embedding of the vendor-allocation optimization service
   (optimization-service/main.py).  Money and quantities are modeled as exact
   rationals.  The external CBC solver is modeled as an oracle outcome that is
   handed to the result-compilation code, together with a decidable predicate
   stating that a variable assignment satisfies exactly the constraints the
   code emits; "Optimal" from a sound solver means such an assignment that
   also minimizes the objective.  Python float division raising
   ZeroDivisionError on a zero denominator is made explicit in the one place
   the code divides without a guard.  The embedding assumes the data-model
   invariant of the spec that vendor ids are unique, so that the dictionary
   decision_vars keyed by vendor_id can be read off from each vendor. -/
structure Vendor where
  vendor_id : String
  vendor_name : String
  company_name : String
  location : String
  specializations : List String
  prices : List (String × ℚ)
  reliability_score : ℚ
  lead_time_days : Int
  capacity : ℚ
  available : Bool
  payment_terms : String
  rating : ℚ
  total_orders : Int
deriving DecidableEq


/-- One entry of the materials list of an optimization request
(main.py line 55: a dict with a category and a quantity). -/
structure MaterialReq where
  category : String
  quantity : ℚ
deriving DecidableEq


/-- main.py lines 121-125: a vendor is kept iff it is available and its lead
time does not exceed the cap. -/
def eligibleVendor (max_lead_time : Int) (v : Vendor) : Bool :=
  v.available && decide (v.lead_time_days ≤ max_lead_time)


/-- main.py line 134: a vendor supplies a category iff the category is among
its specializations and is priced in its price table. -/
def suppliesCat (v : Vendor) (c : String) : Bool :=
  v.specializations.contains c && (v.prices.lookup c).isSome


/-- main.py lines 130-142: the categories for which a decision variable
qty_vendor_category exists for an eligible vendor.  The Python dict keyed by
category collapses repeated request categories to their first occurrence,
hence the dedup. -/
def varCats (materials_req : List MaterialReq) (v : Vendor) : List String :=
  ((materials_req.map (fun m => m.category)).dedup).filter (fun c => suppliesCat v c)


/-- Unit price a vendor quotes for a category.  The 0 default is never used on
the paths below: a decision variable exists only when the lookup succeeds. -/
def priceOf (v : Vendor) (c : String) : ℚ :=
  (v.prices.lookup c).getD 0


/-- Variable bounds 0 ≤ qty ≤ capacity (main.py lines 135-142). -/
def boundsOK (mlt : Int) (mats : List MaterialReq) (vendors : List Vendor)
    (asg : String → String → ℚ) : Bool :=
  (vendors.filter (eligibleVendor mlt)).all (fun v =>
    (varCats mats v).all (fun c =>
      decide (0 ≤ asg v.vendor_id c) && decide (asg v.vendor_id c ≤ v.capacity)))


/-- Supply reaching one category, summed over every vendor holding a decision
variable for it (main.py lines 176-180).  For a requested category the
membership of the category in the dedup list is automatic, so the filter
matches the dictionary lookup of the code. -/
def categorySupply (mlt : Int) (vendors : List Vendor) (asg : String → String → ℚ)
    (c : String) : ℚ :=
  ((vendors.filter (fun v => eligibleVendor mlt v && suppliesCat v c)).map
    (fun v => asg v.vendor_id c)).sum


/-- Demand equalities (main.py lines 171-183): an equality constraint is
emitted only when the category has at least one supplier variable; a category
with no eligible supplier is silently skipped by the code. -/
def demandOK (mlt : Int) (mats : List MaterialReq) (vendors : List Vendor)
    (asg : String → String → ℚ) : Bool :=
  mats.all (fun m =>
    (vendors.filter (fun v => eligibleVendor mlt v && suppliesCat v m.category)).isEmpty ||
    decide (categorySupply mlt vendors asg m.category = m.quantity))


/-- Total modeled cost of an assignment (main.py lines 185-194). -/
def modelCost (mlt : Int) (mats : List MaterialReq) (vendors : List Vendor)
    (asg : String → String → ℚ) : ℚ :=
  ((vendors.filter (eligibleVendor mlt)).map (fun v =>
    ((varCats mats v).map (fun c => priceOf v c * asg v.vendor_id c)).sum)).sum


/-- Objective value (main.py lines 144-169): cost minus the 0.01-weighted
reliability bonus. -/
def objectiveValue (mlt : Int) (mats : List MaterialReq) (vendors : List Vendor)
    (asg : String → String → ℚ) : ℚ :=
  modelCost mlt mats vendors asg +
  ((vendors.filter (eligibleVendor mlt)).map (fun v =>
    ((varCats mats v).map (fun c => -(1 / 100) * v.reliability_score * asg v.vendor_id c)).sum)).sum


/-- An assignment satisfies every constraint the code hands to the solver:
bounds, the emitted demand equalities, and the budget cap (line 196). -/
def satisfies (mats : List MaterialReq) (vendors : List Vendor) (budget : ℚ)
    (mlt : Int) (asg : String → String → ℚ) : Bool :=
  boundsOK mlt mats vendors asg &&
  (demandOK mlt mats vendors asg &&
    decide (modelCost mlt mats vendors asg ≤ budget))


/-- Feasibility of the LP the code builds. -/
def Feasible (mats : List MaterialReq) (vendors : List Vendor) (budget : ℚ)
    (mlt : Int) : Prop :=
  ∃ asg, satisfies mats vendors budget mlt asg = true


/-- Outcome reported by the external solver (main.py line 200): either an
Optimal status with a value for every decision variable, or a non-Optimal
status string such as Infeasible, Unbounded, Undefined or Not Solved. -/
inductive SolveOutcome where
  | optimal (asg : String → String → ℚ)
  | notOptimal (st : String)


/-- Python round(x, 2).  Ties round half-up here while Python floats round
half-to-even; no theorem below touches a tie. -/
def round2 (x : ℚ) : ℚ :=
  ((round (x * 100) : ℤ) : ℚ) / 100


/-- Python max(iterable, default) over the lead times (main.py line 272). -/
def pyMaxD (l : List Int) (d : Int) : Int :=
  match l with
  | [] => d
  | x :: xs => xs.foldl max x


/-- One allocation record of the result (main.py lines 226-238). -/
structure Allocation where
  vendor_id : String
  vendor_name : String
  company_name : String
  location : String
  material_category : String
  quantity : ℚ
  unit_price : ℚ
  subtotal : ℚ
  reliability_score : ℚ
  lead_time_days : Int
  rating : ℚ
deriving DecidableEq


/-- Summary block of a successful result (main.py lines 262-273). -/
structure Summary where
  total_cost : ℚ
  budget : ℚ
  budget_used_percent : ℚ
  remaining_budget : ℚ
  total_vendors_used : Nat
  naive_cost : ℚ
  savings : ℚ
  savings_percent : ℚ
  avg_reliability : ℚ
  max_lead_time : Int
deriving DecidableEq


/-- Result dictionary of optimize_vendor_allocation.  The failure dictionary
(lines 204-208) carries no allocations and no summary key, modeled as none. -/
structure AllocResult where
  success : Bool
  status : String
  message : Option String
  allocations : Option (List Allocation)
  summary : Option Summary
deriving DecidableEq


/-- Python exception escaping optimize_vendor_allocation: the division
total_cost_actual / budget at line 265 has no zero guard. -/
inductive PyErr where
  | zeroDivisionError (msg : String)
deriving DecidableEq


/-- HTTP-level error produced by the FastAPI endpoints. -/
inductive HTTPErr where
  | httpException (status_code : Nat) (detail : String)
deriving DecidableEq


def noOptimalMsg : String :=
  "No optimal solution found. Try increasing budget or relaxing constraints."


def floatDivMsg : String :=
  "float division by zero"


/-- Retained allocations (main.py lines 210-238): one record per decision
variable whose value exceeds the 0.01 materiality threshold, with quantity,
unit price and subtotal rounded to two decimals. -/
def buildAllocations (mlt : Int) (mats : List MaterialReq) (vendors : List Vendor)
    (asg : String → String → ℚ) : List Allocation :=
  (vendors.filter (eligibleVendor mlt)).flatMap (fun v =>
    ((varCats mats v).filter (fun c => decide (1 / 100 < asg v.vendor_id c))).map (fun c =>
      { vendor_id := v.vendor_id
        vendor_name := v.vendor_name
        company_name := v.company_name
        location := v.location
        material_category := c
        quantity := round2 (asg v.vendor_id c)
        unit_price := round2 (priceOf v c)
        subtotal := round2 (priceOf v c * asg v.vendor_id c)
        reliability_score := v.reliability_score
        lead_time_days := v.lead_time_days
        rating := v.rating }))


/-- total_cost_actual (main.py lines 212-224): the unrounded subtotals of the
retained allocations. -/
def total_cost_actual (mlt : Int) (mats : List MaterialReq) (vendors : List Vendor)
    (asg : String → String → ℚ) : ℚ :=
  ((vendors.filter (eligibleVendor mlt)).map (fun v =>
    (((varCats mats v).filter (fun c => decide (1 / 100 < asg v.vendor_id c))).map
      (fun c => priceOf v c * asg v.vendor_id c)).sum)).sum


/-- Maximum unit price any vendor of the full input pool quotes for a
category, 0 when nobody prices it (main.py lines 247-251); availability and
lead time are deliberately ignored here. -/
def maxPoolPrice (vendors : List Vendor) (c : String) : ℚ :=
  vendors.foldl (fun acc v =>
    match v.prices.lookup c with
    | some p => max acc p
    | none => acc) 0


/-- naive_cost (main.py lines 242-253). -/
def naive_cost_calc (mats : List MaterialReq) (vendors : List Vendor) : ℚ :=
  (mats.map (fun m => maxPoolPrice vendors m.category * m.quantity)).sum


/-- Core allocation routine optimize_vendor_allocation (main.py lines 93-274),
given the outcome reported by the solver on the model built from the inputs.
A non-Optimal status is returned as data; an Optimal status is compiled into
allocations and a summary, except that a zero budget raises ZeroDivisionError
at line 265 while the summary is being built. -/
def optimize_vendor_allocation (materials_req : List MaterialReq)
    (vendors : List Vendor) (budget : ℚ) (max_lead_time : Int)
    (oc : SolveOutcome) : Except PyErr AllocResult :=
  match oc with
  | SolveOutcome.notOptimal st =>
      Except.ok
        { success := false
          status := st
          message := some noOptimalMsg
          allocations := none
          summary := none }
  | SolveOutcome.optimal asg =>
      let allocations := buildAllocations max_lead_time materials_req vendors asg
      let tca := total_cost_actual max_lead_time materials_req vendors asg
      let naive := naive_cost_calc materials_req vendors
      let savings := naive - tca
      let savings_percent := if naive > 0 then savings / naive * 100 else 0
      if budget = 0 then Except.error (PyErr.zeroDivisionError floatDivMsg)
      else
        Except.ok
          { success := true
            status := "Optimal"
            message := none
            allocations := some allocations
            summary := some
              { total_cost := round2 tca
                budget := budget
                budget_used_percent := round2 (tca / budget * 100)
                remaining_budget := round2 (budget - tca)
                total_vendors_used := (allocations.map (fun a => a.vendor_id)).dedup.length
                naive_cost := round2 naive
                savings := round2 savings
                savings_percent := round2 savings_percent
                avg_reliability :=
                  if allocations.isEmpty then 0
                  else round2 (((allocations.map (fun a => a.reliability_score * a.quantity)).sum) /
                               ((allocations.map (fun a => a.quantity)).sum))
                max_lead_time := pyMaxD (allocations.map (fun a => a.lead_time_days)) 0 } }


/-- Endpoint optimize_allocation (main.py lines 306-340): rejects an empty
materials list, otherwise runs the solve; any exception, including the
HTTPException 400 raised inside the try block, is rewrapped into a 500. -/
def optimize_allocation (materials : List MaterialReq) (vendors : List Vendor)
    (budget : ℚ) (max_lead_time : Int) (oc : SolveOutcome) : Except HTTPErr AllocResult :=
  if materials.isEmpty then
    Except.error (HTTPErr.httpException 500
      "Optimization failed: 400: Materials list cannot be empty")
  else
    match optimize_vendor_allocation materials vendors budget max_lead_time oc with
    | Except.ok r => Except.ok r
    | Except.error (PyErr.zeroDivisionError m) =>
        Except.error (HTTPErr.httpException 500 ("Optimization failed: " ++ m))


/-- simulation_info block of the vendor-down endpoint (main.py lines 419-423). -/
structure SimulationInfo where
  unavailable_vendors : List String
  total_vendors_in_pool : Nat
  available_vendors : Nat
deriving DecidableEq


/-- Response of the vendor-down endpoint: the allocation result with the
simulation_info fields added. -/
structure VendorDownResult where
  result : AllocResult
  simulation_info : SimulationInfo
deriving DecidableEq


/-- main.py lines 404-407: mark the listed vendor ids unavailable. -/
def markUnavailable (unavailable : List String) (vendors : List Vendor) : List Vendor :=
  vendors.map (fun v =>
    if unavailable.contains v.vendor_id then
      { v with available := false }
    else v)


/-- Endpoint vendor_unavailability_simulation (main.py lines 388-427). -/
def vendor_unavailability_simulation (materials : List MaterialReq)
    (vendors : List Vendor) (budget : ℚ) (max_lead_time : Int)
    (unavailable_vendors : List String) (oc : SolveOutcome) :
    Except HTTPErr VendorDownResult :=
  let vendors2 := markUnavailable unavailable_vendors vendors
  match optimize_vendor_allocation materials vendors2 budget max_lead_time oc with
  | Except.ok r =>
      Except.ok
        { result := r
          simulation_info :=
            { unavailable_vendors := unavailable_vendors
              total_vendors_in_pool := vendors2.length
              available_vendors := (vendors2.filter (fun v => v.available)).length } }
  | Except.error (PyErr.zeroDivisionError m) =>
      Except.error (HTTPErr.httpException 500 ("Vendor down simulation failed: " ++ m))


/-- One row of the budget-sweep response (main.py lines 366-373); missing
summary fields default to 0 through dict get chains. -/
structure Scenario where
  budget : ℚ
  success : Bool
  total_cost : ℚ
  savings : ℚ
  vendors_used : Nat
  feasible : Bool
deriving DecidableEq


def scenarioOf (b : ℚ) (r : AllocResult) : Scenario :=
  { budget := b
    success := r.success
    total_cost := (r.summary.map (fun s => s.total_cost)).getD 0
    savings := (r.summary.map (fun s => s.savings)).getD 0
    vendors_used := (r.summary.map (fun s => s.total_vendors_used)).getD 0
    feasible := r.success }


/-- Response of the budget-sweep endpoint (main.py lines 375-383). -/
structure SimResult where
  success : Bool
  scenarios : List Scenario
  recommendation : Option Scenario
deriving DecidableEq


/-- The sequential scenario loop (main.py lines 357-373); the first exception
aborts the whole sweep. -/
def runScenarios (mats : List MaterialReq) (vendors : List Vendor) (mlt : Int)
    (sol : ℚ → SolveOutcome) : List ℚ → Except PyErr (List Scenario)
  | [] => Except.ok []
  | b :: bs =>
    match optimize_vendor_allocation mats vendors b mlt (sol b) with
    | Except.error e => Except.error e
    | Except.ok r =>
      match runScenarios mats vendors mlt sol bs with
      | Except.error e => Except.error e
      | Except.ok rest => Except.ok (scenarioOf b r :: rest)


/-- Python min with a key: keeps the first element, replacing it only when a
later key is strictly smaller, so the first occurrence wins ties. -/
def pyMinStep (best s : Scenario) : Scenario :=
  if s.total_cost < best.total_cost then s else best


def pyMin (l : List Scenario) : Option Scenario :=
  match l with
  | [] => none
  | x :: xs => some (xs.foldl pyMinStep x)


/-- Endpoint simulate_budget_scenarios (main.py lines 342-386): one solve per
budget, then the recommendation is the min-total-cost feasible scenario when
one exists (lines 378-382). -/
def simulate_budget_scenarios (mats : List MaterialReq) (vendors : List Vendor)
    (budgets : List ℚ) (mlt : Int) (sol : ℚ → SolveOutcome) :
    Except HTTPErr SimResult :=
  match runScenarios mats vendors mlt sol budgets with
  | Except.error (PyErr.zeroDivisionError m) =>
      Except.error (HTTPErr.httpException 500 ("Simulation failed: " ++ m))
  | Except.ok results =>
      Except.ok
        { success := true
          scenarios := results
          recommendation :=
            if results.any (fun r => r.feasible) then
              pyMin (results.filter (fun r => r.feasible))
            else none }


/-- Modelled from the spec (section 4.3 and section 8, budget-sweep sentence):
the recommendation the spec describes, namely the first feasible scenario in
list order whose total cost is lowest. -/
def firstLowest (l : List Scenario) : Option Scenario :=
  (l.filter (fun s => l.all (fun t => decide (s.total_cost ≤ t.total_cost)))).head?


/-- Modelled from the spec (section 4.3): the naive-cost baseline in the words
of the spec: for each requested category the maximum unit price offered by any
vendor of the full pool (0 when nobody prices it), times the required
quantity, summed across categories. -/
def naiveCostSpec (mats : List MaterialReq) (vendors : List Vendor) : ℚ :=
  (mats.map (fun m =>
    ((vendors.filterMap (fun v => v.prices.lookup m.category)).foldl max 0) * m.quantity)).sum


instance {ε α : Type} [DecidableEq ε] [DecidableEq α] : DecidableEq (Except ε α) :=
  fun a b =>
    match a, b with
    | Except.error e, Except.error f =>
        if h : e = f then isTrue (by rw [h]) else isFalse (by intro hc; cases hc; exact h rfl)
    | Except.error _, Except.ok _ => isFalse (by intro hc; cases hc)
    | Except.ok _, Except.error _ => isFalse (by intro hc; cases hc)
    | Except.ok x, Except.ok y =>
        if h : x = y then isTrue (by rw [h]) else isFalse (by intro hc; cases hc; exact h rfl)


/- Concrete fixtures used by counterexamples and witnesses. -/
def zeroAsg : String → String → ℚ := fun _ _ => 0


def steelReq : MaterialReq := { category := "Steel", quantity := 100 }


/-- Vendor A of spec section 8 scenario A. -/
def vendA : Vendor :=
  { vendor_id := "VA"
    vendor_name := "A"
    company_name := "ACo"
    location := "Delhi"
    specializations := ["Steel"]
    prices := [("Steel", 10)]
    reliability_score := 90
    lead_time_days := 5
    capacity := 60
    available := true
    payment_terms := "NET30"
    rating := 4
    total_orders := 12 }


/-- An offline vendor: it prices Steel but is unavailable, so Steel has zero
eligible vendors when it is the only vendor in the pool. -/
def vendOff : Vendor :=
  { vendor_id := "VOFF"
    vendor_name := "Off"
    company_name := "OffCo"
    location := "Pune"
    specializations := ["Steel"]
    prices := [("Steel", 50)]
    reliability_score := 80
    lead_time_days := 5
    capacity := 500
    available := false
    payment_terms := "NET30"
    rating := 4
    total_orders := 3 }


/-- A Steel requirement of the given quantity. -/
def steelQ (q : ℚ) : MaterialReq := { category := "Steel", quantity := q }


def constFour : String → String → ℚ := fun _ _ => 4


def constFive : String → String → ℚ := fun _ _ => 5


/-- The allocation record of the concrete solve of vendor A covering a Steel
requirement of 5 at budget 100. -/
def allocVA5 : Allocation :=
  { vendor_id := "VA"
    vendor_name := "A"
    company_name := "ACo"
    location := "Delhi"
    material_category := "Steel"
    quantity := 5
    unit_price := 10
    subtotal := 50
    reliability_score := 90
    lead_time_days := 5
    rating := 4 }


def sumVA5 : Summary :=
  { total_cost := 50
    budget := 100
    budget_used_percent := 50
    remaining_budget := 50
    total_vendors_used := 1
    naive_cost := 50
    savings := 0
    savings_percent := 0
    avg_reliability := 90
    max_lead_time := 5 }


def resVA5 : AllocResult :=
  { success := true
    status := "Optimal"
    message := none
    allocations := some [allocVA5]
    summary := some sumVA5 }


/-- A vendor with a three-decimal unit price, used to exhibit the two-decimal
rounding of the summary fields. -/
def vendC : Vendor :=
  { vendor_id := "VC"
    vendor_name := "C"
    company_name := "CCo"
    location := "Chennai"
    specializations := ["Steel"]
    prices := [("Steel", 1001 / 1000)]
    reliability_score := 50
    lead_time_days := 5
    capacity := 10
    available := true
    payment_terms := "NET30"
    rating := 3
    total_orders := 2 }


def constOne : String → String → ℚ := fun _ _ => 1


/-- The accumulator step of the naive-cost maximum scan (main.py lines 249-251). -/
def maxPoolStep (c : String) (acc : ℚ) (v : Vendor) : ℚ :=
  match v.prices.lookup c with
  | some p => max acc p
  | none => acc


def solW : ℚ → SolveOutcome := fun b =>
  if b < 50 then SolveOutcome.notOptimal "Infeasible" else SolveOutcome.optimal constFour


def scW1 : Scenario :=
  { budget := 5, success := false, total_cost := 0, savings := 0,
    vendors_used := 0, feasible := false }


def scW2 : Scenario :=
  { budget := 50, success := true, total_cost := 40, savings := 0,
    vendors_used := 1, feasible := true }


def srW : SimResult :=
  { success := true, scenarios := [scW1, scW2], recommendation := some scW2 }


/-- One step of the comparison between the Python min fold and the
first-lowest reading of the spec: folding the first two elements into their
strict-min does not change which scenario is the first one of lowest cost. -/
theorem firstLowest_cons_cons (b y : Scenario) (ys : List Scenario) :
    firstLowest (b :: y :: ys) = firstLowest (pyMinStep b y :: ys) := by
  rw [firstLowest, firstLowest]
  by_cases hlt : y.total_cost < b.total_cost
  · rw [pyMinStep, if_pos hlt]
    have hpb : ((b :: y :: ys).all (fun t => decide (b.total_cost ≤ t.total_cost))) = false := by
      simp only [List.all_cons]
      have : ¬ (b.total_cost ≤ y.total_cost) := not_le.mpr hlt
      simp [this]
    have hstep : (b :: y :: ys).filter
          (fun s => (b :: y :: ys).all (fun t => decide (s.total_cost ≤ t.total_cost))) =
        (y :: ys).filter
          (fun s => (b :: y :: ys).all (fun t => decide (s.total_cost ≤ t.total_cost))) := by
      rw [List.filter_cons]
      simp [hpb]
    have hcong : ∀ s ∈ y :: ys,
        ((b :: y :: ys).all (fun t => decide (s.total_cost ≤ t.total_cost))) =
        ((y :: ys).all (fun t => decide (s.total_cost ≤ t.total_cost))) := by
      intro s hs
      simp only [List.all_cons]
      by_cases hsy : s.total_cost ≤ y.total_cost
      · have hsb : s.total_cost ≤ b.total_cost := le_trans hsy (le_of_lt hlt)
        simp [hsb]
      · simp [hsy]
    rw [hstep, List.filter_congr hcong]
  · have hge : b.total_cost ≤ y.total_cost := not_lt.mp hlt
    rw [pyMinStep, if_neg hlt]
    by_cases hpy : ((b :: y :: ys).all (fun t => decide (y.total_cost ≤ t.total_cost))) = true
    · have h1 : y.total_cost ≤ b.total_cost := by
        have h2 := (List.all_eq_true.mp hpy) b (by simp)
        simpa using h2
      have heqv : y.total_cost = b.total_cost := le_antisymm h1 hge
      have hpb : ((b :: y :: ys).all (fun t => decide (b.total_cost ≤ t.total_cost))) = true := by
        rw [List.all_eq_true] at hpy ⊢
        intro t ht
        have h3 := hpy t ht
        rw [decide_eq_true_eq] at h3 ⊢
        exact heqv ▸ h3
      have hpb3 : ((b :: ys).all (fun t => decide (b.total_cost ≤ t.total_cost))) = true := by
        rw [List.all_eq_true] at hpb ⊢
        intro t ht
        rcases List.mem_cons.mp ht with h4 | h4
        · exact hpb t (by simp [h4])
        · exact hpb t (by simp [h4])
      rw [List.filter_cons, List.filter_cons]
      simp only [hpb, hpb3, if_true]
      rw [List.head?_cons, List.filter_cons]
      simp only [hpb3, if_true]
      rw [List.head?_cons]
    · have hpyf : ((b :: y :: ys).all (fun t => decide (y.total_cost ≤ t.total_cost))) = false :=
        Bool.eq_false_iff.mpr hpy
      have hptw : ∀ s : Scenario,
          ((b :: y :: ys).all (fun t => decide (s.total_cost ≤ t.total_cost))) =
          ((b :: ys).all (fun t => decide (s.total_cost ≤ t.total_cost))) := by
        intro s
        simp only [List.all_cons]
        by_cases hsb : s.total_cost ≤ b.total_cost
        · have hsy : s.total_cost ≤ y.total_cost := le_trans hsb hge
          simp [hsy]
        · simp [hsb]
      have hfys : ys.filter
            (fun s => (b :: y :: ys).all (fun t => decide (s.total_cost ≤ t.total_cost))) =
          ys.filter
            (fun s => (b :: ys).all (fun t => decide (s.total_cost ≤ t.total_cost))) :=
        List.filter_congr (fun s _ => hptw s)
      rw [List.filter_cons, List.filter_cons, List.filter_cons]
      simp only [hpyf, hptw b, hfys]
      split <;> simp


/-- The Python min over a key equals the first element of lowest key. -/
theorem pyMin_foldl_eq_firstLowest (xs : List Scenario) (b : Scenario) :
    some (xs.foldl pyMinStep b) = firstLowest (b :: xs) := by
  induction xs generalizing b with
  | nil =>
    rw [firstLowest]
    simp
  | cons y ys ih =>
    rw [List.foldl_cons, ih (pyMinStep b y), firstLowest_cons_cons]


theorem pyMin_eq_firstLowest (l : List Scenario) : pyMin l = firstLowest l := by
  cases l with
  | nil => rfl
  | cons x xs => rw [pyMin, pyMin_foldl_eq_firstLowest]


theorem firstLowest_eq_none_iff (l : List Scenario) : firstLowest l = none ↔ l = [] := by
  constructor
  · intro h
    cases l with
    | nil => rfl
    | cons x xs =>
      rw [← pyMin_eq_firstLowest, pyMin] at h
      cases h
  · intro h
    subst h
    rfl


/-- With the only vendor filtered out, no decision variable exists, so every
assignment gives the same objective value 0: the zero assignment is genuinely
optimal for the model the code builds on this input. -/
theorem objective_constant_without_vars (asg : String → String → ℚ) :
    objectiveValue 30 [steelReq] [vendOff] asg = 0 := by
  norm_num [objectiveValue, modelCost, varCats, suppliesCat, eligibleVendor,
    priceOf, steelReq, vendOff]


/-- C1: the code violates the claim.  On a request whose only category has zero
eligible vendors (the lone vendor prices Steel but is unavailable) the code
skips the demand equality (main.py line 182), the remaining trivial LP is
satisfied by the zero assignment, and optimize_vendor_allocation returns
success with status Optimal, the category silently left at zero quantity, with
no structured infeasibility flag anywhere. -/
theorem C1_zero_eligible_vendors_reported_optimal :
    satisfies [steelReq] [vendOff] 1000 30 zeroAsg = true ∧
    optimize_vendor_allocation [steelReq] [vendOff] 1000 30 (SolveOutcome.optimal zeroAsg) =
      Except.ok
        { success := true
          status := "Optimal"
          message := none
          allocations := some []
          summary := some
            { total_cost := 0
              budget := 1000
              budget_used_percent := 0
              remaining_budget := 1000
              total_vendors_used := 0
              naive_cost := 5000
              savings := 5000
              savings_percent := 100
              avg_reliability := 0
              max_lead_time := 0 } } := by
  constructor
  · norm_num [satisfies, boundsOK, demandOK, modelCost, categorySupply, varCats,
      suppliesCat, eligibleVendor, priceOf, zeroAsg, steelReq, vendOff]
  · norm_num [optimize_vendor_allocation, buildAllocations, total_cost_actual,
      naive_cost_calc, maxPoolPrice, varCats, suppliesCat, eligibleVendor, priceOf,
      round2, round_eq, pyMaxD, zeroAsg, steelReq, vendOff]


/-- C4: a non-Optimal solver status is returned as data for every input: the
function yields success false with the status string, the fixed remediation
hint, and neither allocations nor a summary, and it never throws. -/
theorem C4_non_optimal_returned_as_data (materials_req : List MaterialReq)
    (vendors : List Vendor) (budget : ℚ) (max_lead_time : Int) (st : String) :
    optimize_vendor_allocation materials_req vendors budget max_lead_time
        (SolveOutcome.notOptimal st) =
      Except.ok
        { success := false
          status := st
          message := some noOptimalMsg
          allocations := none
          summary := none } := rfl


/-- C10: with budget 0 and a zero required quantity the constraints are
satisfied by the zero assignment, the solver reports Optimal, and the summary
computation then divides total cost by the budget with no zero guard
(main.py line 265), raising ZeroDivisionError instead of returning any
structured result. -/
theorem C10_zero_budget_division_crash :
    satisfies [steelQ 0] [vendA] 0 30 zeroAsg = true ∧
    optimize_vendor_allocation [steelQ 0] [vendA] 0 30 (SolveOutcome.optimal zeroAsg) =
      Except.error (PyErr.zeroDivisionError floatDivMsg) := by
  constructor
  · norm_num [satisfies, boundsOK, demandOK, modelCost, categorySupply, varCats,
      suppliesCat, eligibleVendor, priceOf, zeroAsg, steelQ, vendA]
  · norm_num [optimize_vendor_allocation]


/-- Supporting fact for the C3 counterexample: with the budget -5 the emitted
constraints are unsatisfiable, so a sound solver reports Infeasible. -/
theorem neg_budget_infeasible (asg : String → String → ℚ) :
    satisfies [steelReq] [vendA] (-5) 30 asg = false := by
  rw [Bool.eq_false_iff]
  intro h
  norm_num [satisfies, boundsOK, demandOK, categorySupply, modelCost, varCats,
    suppliesCat, eligibleVendor, priceOf, steelReq, vendA] at h
  obtain ⟨⟨hb0, -⟩, -, hc⟩ := h
  linarith


/-- C3 counterexample: with the non-positive budget -5 and a non-empty
materials list the endpoint does not return any pre-solve ValidationError: it
builds the model, consults the solver (the response depends on the solver
outcome), and hands back the solver Infeasible status as data. -/
theorem C3_counterexample :
    optimize_allocation [steelReq] [vendA] (-5) 30 (SolveOutcome.notOptimal "Infeasible") =
      Except.ok
        { success := false
          status := "Infeasible"
          message := some noOptimalMsg
          allocations := none
          summary := none } ∧
    optimize_allocation [steelReq] [vendA] (-5) 30 (SolveOutcome.optimal zeroAsg) ≠
      optimize_allocation [steelReq] [vendA] (-5) 30 (SolveOutcome.notOptimal "Infeasible") := by
  constructor
  · norm_num [optimize_allocation, optimize_vendor_allocation]
  · norm_num [optimize_allocation, optimize_vendor_allocation, buildAllocations,
      total_cost_actual, naive_cost_calc, maxPoolPrice, varCats, suppliesCat,
      eligibleVendor, priceOf, round2, round_eq, pyMaxD, zeroAsg, steelReq, vendA]


/-- C9: feasibility of the model the code builds is monotone in the budget:
the budget occurs only in the cost cap, so an assignment satisfying the
constraints at budget b satisfies them at any b2 with b ≤ b2. -/
theorem C9_budget_monotone (mats : List MaterialReq) (vendors : List Vendor)
    (mlt : Int) (b b2 : ℚ) (asg : String → String → ℚ)
    (hb : b ≤ b2) (hsat : satisfies mats vendors b mlt asg = true) :
    satisfies mats vendors b2 mlt asg = true := by
  simp only [satisfies, Bool.and_eq_true, decide_eq_true_eq] at hsat ⊢
  exact ⟨hsat.1, hsat.2.1, le_trans hsat.2.2 hb⟩


/-- C3 amended: an empty materials list is rejected with a structured HTTP
error before the model is built, whatever the solver would do; a non-positive
budget is not validated at all: the solve proceeds and (here at budget -5,
where the constraints are unsatisfiable by neg_budget_infeasible) the solver
status Infeasible is returned as data rather than any ValidationError. -/
theorem C3_empty_rejected_nonpositive_budget_not_validated :
    (∀ (vendors : List Vendor) (budget : ℚ) (mlt : Int) (oc : SolveOutcome),
      optimize_allocation [] vendors budget mlt oc =
        Except.error (HTTPErr.httpException 500
          "Optimization failed: 400: Materials list cannot be empty")) ∧
    optimize_allocation [steelReq] [vendA] (-5) 30 (SolveOutcome.notOptimal "Infeasible") =
      Except.ok
        { success := false
          status := "Infeasible"
          message := some noOptimalMsg
          allocations := none
          summary := none } := by
  constructor
  · intro vendors budget mlt oc
    rfl
  · norm_num [optimize_allocation, optimize_vendor_allocation]


/-- Shape of a successful solve: when the solver says Optimal and the function
returns a result at all, the budget is nonzero and every field is the compiled
one (main.py lines 210-274). -/
theorem optimize_optimal_ok (mats : List MaterialReq) (vendors : List Vendor)
    (budget : ℚ) (mlt : Int) (asg : String → String → ℚ) (r : AllocResult)
    (hr : optimize_vendor_allocation mats vendors budget mlt (SolveOutcome.optimal asg) =
      Except.ok r) :
    budget ≠ 0 ∧
    r = { success := true
          status := "Optimal"
          message := none
          allocations := some (buildAllocations mlt mats vendors asg)
          summary := some
            { total_cost := round2 (total_cost_actual mlt mats vendors asg)
              budget := budget
              budget_used_percent :=
                round2 (total_cost_actual mlt mats vendors asg / budget * 100)
              remaining_budget :=
                round2 (budget - total_cost_actual mlt mats vendors asg)
              total_vendors_used :=
                ((buildAllocations mlt mats vendors asg).map (fun a => a.vendor_id)).dedup.length
              naive_cost := round2 (naive_cost_calc mats vendors)
              savings :=
                round2 (naive_cost_calc mats vendors - total_cost_actual mlt mats vendors asg)
              savings_percent :=
                round2 (if naive_cost_calc mats vendors > 0 then
                  (naive_cost_calc mats vendors - total_cost_actual mlt mats vendors asg) /
                    naive_cost_calc mats vendors * 100
                else 0)
              avg_reliability :=
                if (buildAllocations mlt mats vendors asg).isEmpty then 0
                else round2
                  ((((buildAllocations mlt mats vendors asg).map
                      (fun a => a.reliability_score * a.quantity)).sum) /
                   (((buildAllocations mlt mats vendors asg).map (fun a => a.quantity)).sum))
              max_lead_time :=
                pyMaxD ((buildAllocations mlt mats vendors asg).map
                  (fun a => a.lead_time_days)) 0 } } := by
  by_cases hb : budget = 0
  · rw [optimize_vendor_allocation] at hr
    simp [hb] at hr
  · refine ⟨hb, ?_⟩
    rw [optimize_vendor_allocation] at hr
    simp only [hb, if_false] at hr
    injection hr with h
    exact h.symm


/-- C2 counterexample: with zero eligible vendors for Steel the solve still
reports Optimal with an empty allocation list, so the allocated total 0 misses
the required 75 by far more than the 1e-6 tolerance. -/
theorem C2_counterexample :
    satisfies [steelQ 75] [vendOff] 500 30 zeroAsg = true ∧
    optimize_vendor_allocation [steelQ 75] [vendOff] 500 30 (SolveOutcome.optimal zeroAsg) =
      Except.ok
        { success := true
          status := "Optimal"
          message := none
          allocations := some []
          summary := some
            { total_cost := 0
              budget := 500
              budget_used_percent := 0
              remaining_budget := 500
              total_vendors_used := 0
              naive_cost := 3750
              savings := 3750
              savings_percent := 100
              avg_reliability := 0
              max_lead_time := 0 } } ∧
    (75 : ℚ) - 0 > 1 / 1000000 := by
  refine ⟨?_, ?_, by norm_num⟩
  · norm_num [satisfies, boundsOK, demandOK, modelCost, categorySupply, varCats,
      suppliesCat, eligibleVendor, priceOf, zeroAsg, steelQ, vendOff]
  · norm_num [optimize_vendor_allocation, buildAllocations, total_cost_actual,
      naive_cost_calc, maxPoolPrice, varCats, suppliesCat, eligibleVendor, priceOf,
      round2, round_eq, pyMaxD, zeroAsg, steelQ, vendOff]


/-- C2 amended: whenever the returned status is Optimal, every requested
category that has at least one eligible supplier receives, summed over the
solver-assigned decision variables, exactly its required quantity (the demand
equality the code emits), which is well within the 1e-6 tolerance. -/
theorem C2_optimal_meets_posted_demand (mats : List MaterialReq) (vendors : List Vendor)
    (budget : ℚ) (mlt : Int) (asg : String → String → ℚ) (r : AllocResult) (m : MaterialReq)
    (hr : optimize_vendor_allocation mats vendors budget mlt (SolveOutcome.optimal asg) =
      Except.ok r)
    (hsat : satisfies mats vendors budget mlt asg = true)
    (hm : m ∈ mats)
    (hsup : vendors.filter (fun v => eligibleVendor mlt v && suppliesCat v m.category) ≠ []) :
    r.status = "Optimal" ∧ categorySupply mlt vendors asg m.category = m.quantity := by
  obtain ⟨-, rfl⟩ := optimize_optimal_ok mats vendors budget mlt asg r hr
  refine ⟨rfl, ?_⟩
  have hd : demandOK mlt mats vendors asg = true := by
    simp only [satisfies, Bool.and_eq_true] at hsat
    exact hsat.2.1
  rw [demandOK, List.all_eq_true] at hd
  have hdm := hd m hm
  rw [Bool.or_eq_true] at hdm
  cases hdm with
  | inl h => exact absurd (List.isEmpty_iff.mp h) hsup
  | inr h => exact of_decide_eq_true h


/-- Concrete evaluation of the solve behind the C2, C5, C6 and C8 witnesses. -/
theorem resVA5_eq :
    optimize_vendor_allocation [steelQ 5] [vendA] 100 30 (SolveOutcome.optimal constFive) =
      Except.ok resVA5 := by
  norm_num [optimize_vendor_allocation, buildAllocations, total_cost_actual,
    naive_cost_calc, maxPoolPrice, varCats, suppliesCat, eligibleVendor, priceOf,
    round2, round_eq, pyMaxD, constFive, steelQ, vendA, resVA5, allocVA5, sumVA5]


/-- Witness for C2 at the concrete solve resVA5_eq. -/
theorem C2_witness :
    resVA5.status = "Optimal" ∧ categorySupply 30 [vendA] constFive "Steel" = 5 :=
  C2_optimal_meets_posted_demand [steelQ 5] [vendA] 100 30 constFive resVA5 (steelQ 5)
    resVA5_eq
    (by norm_num [satisfies, boundsOK, demandOK, modelCost, categorySupply, varCats,
      suppliesCat, eligibleVendor, priceOf, constFive, steelQ, vendA])
    (by simp)
    (by norm_num [eligibleVendor, suppliesCat, vendA, steelQ])


/-- The fold with a lookup match of the code equals the spec-side fold of max
over the offered prices, for any accumulator. -/
theorem maxPoolPrice_eq_spec (vendors : List Vendor) (c : String) :
    maxPoolPrice vendors c = (vendors.filterMap (fun v => v.prices.lookup c)).foldl max 0 := by
  rw [maxPoolPrice]
  generalize (0 : ℚ) = a
  induction vendors generalizing a with
  | nil => rfl
  | cons v vs ih =>
    cases hl : v.prices.lookup c <;>
      simp only [List.foldl_cons, List.filterMap_cons, hl, ih]


theorem naive_cost_eq_spec (mats : List MaterialReq) (vendors : List Vendor) :
    naive_cost_calc mats vendors = naiveCostSpec mats vendors := by
  simp only [naive_cost_calc, naiveCostSpec, maxPoolPrice_eq_spec]


/-- C5 counterexample: with the unit price 1.001 and a required quantity of 1,
the sum the claim describes is 1.001, but the summary stores the two-decimal
rounding 1.00, so the stored field does not equal the sum. -/
theorem C5_counterexample :
    satisfies [steelQ 1] [vendC] 10 30 constOne = true ∧
    optimize_vendor_allocation [steelQ 1] [vendC] 10 30 (SolveOutcome.optimal constOne) =
      Except.ok
        { success := true
          status := "Optimal"
          message := none
          allocations := some
            [{ vendor_id := "VC"
               vendor_name := "C"
               company_name := "CCo"
               location := "Chennai"
               material_category := "Steel"
               quantity := 1
               unit_price := 1
               subtotal := 1
               reliability_score := 50
               lead_time_days := 5
               rating := 3 }]
          summary := some
            { total_cost := 1
              budget := 10
              budget_used_percent := 1001 / 100
              remaining_budget := 9
              total_vendors_used := 1
              naive_cost := 1
              savings := 0
              savings_percent := 0
              avg_reliability := 50
              max_lead_time := 5 } } ∧
    naiveCostSpec [steelQ 1] [vendC] = 1001 / 1000 ∧
    (1 : ℚ) ≠ 1001 / 1000 := by
  refine ⟨?_, ?_, ?_, by norm_num⟩
  · norm_num [satisfies, boundsOK, demandOK, modelCost, categorySupply, varCats,
      suppliesCat, eligibleVendor, priceOf, constOne, steelQ, vendC]
  · norm_num [optimize_vendor_allocation, buildAllocations, total_cost_actual,
      naive_cost_calc, maxPoolPrice, varCats, suppliesCat, eligibleVendor, priceOf,
      round2, round_eq, pyMaxD, constOne, steelQ, vendC]
  · norm_num [naiveCostSpec, steelQ, vendC, List.filterMap_cons, List.lookup]


/-- C5 amended: on every Optimal result the summary field naive_cost equals
the spec baseline naiveCostSpec - the maximum unit price offered by any vendor
of the full pool per requested category, 0 when nobody prices it, times the
required quantity, summed - rounded to two decimals like every monetary
summary field. -/
theorem C5_naive_cost_formula (mats : List MaterialReq) (vendors : List Vendor)
    (budget : ℚ) (mlt : Int) (asg : String → String → ℚ) (r : AllocResult) (s : Summary)
    (hr : optimize_vendor_allocation mats vendors budget mlt (SolveOutcome.optimal asg) =
      Except.ok r)
    (hs : r.summary = some s) :
    s.naive_cost = round2 (naiveCostSpec mats vendors) := by
  obtain ⟨-, rfl⟩ := optimize_optimal_ok mats vendors budget mlt asg r hr
  injection hs with hs2
  rw [← hs2, naive_cost_eq_spec]


/-- Witness for C5 at the concrete solve resVA5_eq. -/
theorem C5_witness : sumVA5.naive_cost = round2 (naiveCostSpec [steelQ 5] [vendA]) :=
  C5_naive_cost_formula [steelQ 5] [vendA] 100 30 constFive resVA5 sumVA5 resVA5_eq rfl


theorem markUnavailable_nil (vendors : List Vendor) : markUnavailable [] vendors = vendors := by
  induction vendors with
  | nil => rfl
  | cons v vs ih =>
    simp only [markUnavailable, List.map_cons] at ih ⊢
    rw [ih]
    rfl


/-- C8 counterexample: on an empty materials list the two operations differ:
the vendor-down simulation happily solves the empty model and returns an
Optimal result, while the direct optimize endpoint rejects the request with a
structured HTTP error, so the claim fails for that materials list. -/
theorem C8_counterexample :
    satisfies [] [vendA] 100 30 zeroAsg = true ∧
    vendor_unavailability_simulation [] [vendA] 100 30 [] (SolveOutcome.optimal zeroAsg) =
      Except.ok
        { result :=
            { success := true
              status := "Optimal"
              message := none
              allocations := some []
              summary := some
                { total_cost := 0
                  budget := 100
                  budget_used_percent := 0
                  remaining_budget := 100
                  total_vendors_used := 0
                  naive_cost := 0
                  savings := 0
                  savings_percent := 0
                  avg_reliability := 0
                  max_lead_time := 0 } }
          simulation_info :=
            { unavailable_vendors := []
              total_vendors_in_pool := 1
              available_vendors := 1 } } ∧
    optimize_allocation [] [vendA] 100 30 (SolveOutcome.optimal zeroAsg) =
      Except.error (HTTPErr.httpException 500
        "Optimization failed: 400: Materials list cannot be empty") := by
  refine ⟨?_, ?_, rfl⟩
  · norm_num [satisfies, boundsOK, demandOK, modelCost, categorySupply, varCats,
      suppliesCat, eligibleVendor, priceOf, zeroAsg, vendA]
  · norm_num [vendor_unavailability_simulation, markUnavailable, optimize_vendor_allocation,
      buildAllocations, total_cost_actual, naive_cost_calc, maxPoolPrice, varCats,
      suppliesCat, eligibleVendor, priceOf, round2, round_eq, pyMaxD, zeroAsg, vendA]


/-- C8 amended: for every non-empty materials list, whenever the underlying
solve returns a result rather than raising, the vendor-down simulation with an
empty disable list returns exactly the result of the direct optimize call,
with only the simulation_info fields added. -/
theorem C8_empty_disable_matches_direct (mats : List MaterialReq) (vendors : List Vendor)
    (budget : ℚ) (mlt : Int) (oc : SolveOutcome) (r : AllocResult)
    (hne : mats ≠ [])
    (hr : optimize_vendor_allocation mats vendors budget mlt oc = Except.ok r) :
    vendor_unavailability_simulation mats vendors budget mlt [] oc =
      Except.ok
        { result := r
          simulation_info :=
            { unavailable_vendors := []
              total_vendors_in_pool := vendors.length
              available_vendors := (vendors.filter (fun v => v.available)).length } } ∧
    optimize_allocation mats vendors budget mlt oc = Except.ok r := by
  constructor
  · rw [vendor_unavailability_simulation, markUnavailable_nil, hr]
  · have hne2 : mats.isEmpty = false := by
      cases mats with
      | nil => exact absurd rfl hne
      | cons m ms => rfl
    rw [optimize_allocation, hne2, hr]
    rfl


theorem lookup_mem {β : Type} {l : List (String × β)} {c : String} {p : β}
    (h : l.lookup c = some p) : (c, p) ∈ l := by
  induction l with
  | nil => cases h
  | cons kv t ih =>
    obtain ⟨k, b⟩ := kv
    simp only [List.lookup] at h
    split at h
    · next heq =>
      injection h with h2
      have hck : c = k := eq_of_beq heq
      subst hck
      subst h2
      exact List.mem_cons_self _ _
    · next => exact List.mem_cons_of_mem _ (ih h)


theorem sum_map_filter_eq_sum_ite {α : Type} (l : List α) (p : α → Bool) (f : α → ℚ) :
    ((l.filter p).map f).sum = (l.map (fun x => if p x then f x else 0)).sum := by
  induction l with
  | nil => rfl
  | cons x xs ih =>
    by_cases h : p x <;> simp [List.filter_cons, h, ih]


theorem sum_map_add_distrib {β : Type} (l : List β) (f g : β → ℚ) :
    (l.map (fun b => f b + g b)).sum = (l.map f).sum + (l.map g).sum := by
  induction l with
  | nil => simp
  | cons b bs ih =>
    simp only [List.map_cons, List.sum_cons, ih]
    ring


theorem sum_map_swap {α β : Type} (l1 : List α) (l2 : List β) (f : α → β → ℚ) :
    (l1.map (fun a => (l2.map (fun b => f a b)).sum)).sum =
    (l2.map (fun b => (l1.map (fun a => f a b)).sum)).sum := by
  induction l1 with
  | nil => simp
  | cons a as ih =>
    simp only [List.map_cons, List.sum_cons, ih, ← sum_map_add_distrib]


theorem maxPoolPrice_eq_foldl (vendors : List Vendor) (c : String) :
    maxPoolPrice vendors c = vendors.foldl (maxPoolStep c) 0 := rfl


theorem le_maxPool_foldl (vendors : List Vendor) (c : String) (a : ℚ) :
    a ≤ vendors.foldl (maxPoolStep c) a := by
  induction vendors generalizing a with
  | nil => exact le_refl a
  | cons v vs ih =>
    refine le_trans ?_ (ih (maxPoolStep c a v))
    rw [maxPoolStep]
    cases v.prices.lookup c with
    | none => exact le_refl a
    | some p => exact le_max_left a p


theorem price_le_maxPool_foldl (vendors : List Vendor) (c : String) (a : ℚ)
    {v : Vendor} {p : ℚ} (hv : v ∈ vendors) (hp : v.prices.lookup c = some p) :
    p ≤ vendors.foldl (maxPoolStep c) a := by
  induction vendors generalizing a with
  | nil => cases hv
  | cons w ws ih =>
    rcases List.mem_cons.mp hv with hw | hv2
    · subst hw
      refine le_trans ?_ (le_maxPool_foldl ws c (maxPoolStep c a v))
      rw [maxPoolStep, hp]
      exact le_max_right a p
    · exact ih (maxPoolStep c a w) hv2


theorem maxPoolPrice_nonneg (vendors : List Vendor) (c : String) :
    0 ≤ maxPoolPrice vendors c := by
  rw [maxPoolPrice_eq_foldl]
  exact le_maxPool_foldl vendors c 0


theorem price_le_maxPoolPrice {vendors : List Vendor} {v : Vendor} {c : String} {p : ℚ}
    (hv : v ∈ vendors) (hp : v.prices.lookup c = some p) :
    p ≤ maxPoolPrice vendors c := by
  rw [maxPoolPrice_eq_foldl]
  exact price_le_maxPool_foldl vendors c 0 hv hp


theorem round2_mono {x y : ℚ} (h : x ≤ y) : round2 x ≤ round2 y := by
  rw [round2, round2]
  have h2 : round (x * 100) ≤ round (y * 100) := by
    rw [round_eq, round_eq]
    exact Int.floor_le_floor (by linarith)
  have h3 : ((round (x * 100) : ℤ) : ℚ) ≤ ((round (y * 100) : ℤ) : ℚ) := by
    exact_mod_cast h2
  linarith


/-- C7: whenever the budget sweep returns a response, its recommendation is
exactly the first feasible scenario of lowest total cost in list order (ties
to the earliest), and it is absent precisely when no swept scenario is
feasible. -/
theorem C7_recommendation (mats : List MaterialReq) (vendors : List Vendor)
    (budgets : List ℚ) (mlt : Int) (sol : ℚ → SolveOutcome) (sr : SimResult)
    (h : simulate_budget_scenarios mats vendors budgets mlt sol = Except.ok sr) :
    sr.recommendation = firstLowest (sr.scenarios.filter (fun s => s.feasible)) ∧
    (sr.recommendation = none ↔ sr.scenarios.filter (fun s => s.feasible) = []) := by
  rw [simulate_budget_scenarios] at h
  cases hrs : runScenarios mats vendors mlt sol budgets with
  | error e =>
    rw [hrs] at h
    cases e
    cases h
  | ok results =>
    rw [hrs] at h
    injection h with h2
    have hrec : sr.recommendation =
        firstLowest (sr.scenarios.filter (fun s => s.feasible)) := by
      rw [← h2]
      show (if results.any (fun r => r.feasible) then
          pyMin (results.filter (fun r => r.feasible)) else none) =
        firstLowest (results.filter (fun s => s.feasible))
      by_cases ha : results.any (fun r => r.feasible) = true
      · rw [if_pos ha, pyMin_eq_firstLowest]
      · rw [if_neg ha]
        have hnil : results.filter (fun s => s.feasible) = [] := by
          rw [List.filter_eq_nil_iff]
          intro a hal hfeas
          exact ha (List.any_eq_true.mpr ⟨a, hal, by simpa using hfeas⟩)
        rw [hnil]
        rfl
    exact ⟨hrec, by rw [hrec, firstLowest_eq_none_iff]⟩


/-- Witness for C7 at a concrete two-budget sweep whose first scenario is
infeasible and whose second is feasible. -/
theorem C7_witness :
    srW.recommendation = firstLowest (srW.scenarios.filter (fun s => s.feasible)) ∧
    (srW.recommendation = none ↔ srW.scenarios.filter (fun s => s.feasible) = []) :=
  C7_recommendation [steelQ 4] [vendA] [5, 50] 30 solW srW (by
    norm_num [simulate_budget_scenarios, runScenarios, optimize_vendor_allocation,
      buildAllocations, total_cost_actual, naive_cost_calc, maxPoolPrice, varCats,
      suppliesCat, eligibleVendor, priceOf, round2, round_eq, pyMaxD, scenarioOf,
      pyMin, pyMinStep, solW, constFour, steelQ, vendA, srW, scW1, scW2])


/-- Core inequality behind C6: under the data-model invariants of the spec
(non-negative prices and quantities, distinct request categories), any
assignment satisfying the emitted constraints has a retained cost bounded by
the naive baseline. -/
theorem total_le_naive (mats : List MaterialReq) (vendors : List Vendor)
    (budget : ℚ) (mlt : Int) (asg : String → String → ℚ)
    (hq : ∀ m ∈ mats, 0 ≤ m.quantity)
    (hp : ∀ v ∈ vendors, ∀ pr ∈ v.prices, 0 ≤ pr.2)
    (hnd : (mats.map (fun m => m.category)).Nodup)
    (hsat : satisfies mats vendors budget mlt asg = true) :
    total_cost_actual mlt mats vendors asg ≤ naive_cost_calc mats vendors := by
  have hb : boundsOK mlt mats vendors asg = true := by
    simp only [satisfies, Bool.and_eq_true] at hsat
    exact hsat.1
  have hd : demandOK mlt mats vendors asg = true := by
    simp only [satisfies, Bool.and_eq_true] at hsat
    exact hsat.2.1
  have hb2 : ∀ v ∈ vendors.filter (eligibleVendor mlt), ∀ c ∈ varCats mats v,
      0 ≤ asg v.vendor_id c ∧ asg v.vendor_id c ≤ v.capacity := by
    intro v hv c hc
    rw [boundsOK, List.all_eq_true] at hb
    have h1 := hb v hv
    rw [List.all_eq_true] at h1
    have h2 := h1 c hc
    rw [Bool.and_eq_true, decide_eq_true_eq, decide_eq_true_eq] at h2
    exact h2
  have hprice : ∀ v ∈ vendors, ∀ c, suppliesCat v c = true →
      0 ≤ priceOf v c ∧ priceOf v c ≤ maxPoolPrice vendors c := by
    intro v hv c hsc
    rw [suppliesCat, Bool.and_eq_true] at hsc
    obtain ⟨p, hp2⟩ := Option.isSome_iff_exists.mp hsc.2
    rw [priceOf, hp2, Option.getD_some]
    exact ⟨hp v hv (c, p) (lookup_mem hp2), price_le_maxPoolPrice hv hp2⟩
  have hA : total_cost_actual mlt mats vendors asg ≤ modelCost mlt mats vendors asg := by
    rw [total_cost_actual, modelCost]
    refine List.sum_le_sum ?_
    intro v hv
    rw [sum_map_filter_eq_sum_ite]
    refine List.sum_le_sum ?_
    intro c hc
    split
    · exact le_refl _
    · exact mul_nonneg
        (hprice v (List.mem_filter.mp hv).1 c (List.mem_filter.mp hc).2).1
        (hb2 v hv c hc).1
  have hcats : (mats.map (fun m => m.category)).dedup = mats.map (fun m => m.category) :=
    List.Nodup.dedup hnd
  have hB : modelCost mlt mats vendors asg =
      (mats.map (fun m =>
        ((vendors.filter (eligibleVendor mlt)).map (fun v =>
          if suppliesCat v m.category then
            priceOf v m.category * asg v.vendor_id m.category
          else 0)).sum)).sum := by
    rw [modelCost]
    have step1 : ∀ v : Vendor,
        ((varCats mats v).map (fun c => priceOf v c * asg v.vendor_id c)).sum =
        (mats.map (fun m =>
          if suppliesCat v m.category then
            priceOf v m.category * asg v.vendor_id m.category
          else 0)).sum := by
      intro v
      rw [varCats, hcats, sum_map_filter_eq_sum_ite, List.map_map]
      rfl
    simp only [step1]
    rw [sum_map_swap]
  have hC : ∀ m ∈ mats,
      ((vendors.filter (eligibleVendor mlt)).map (fun v =>
        if suppliesCat v m.category then
          priceOf v m.category * asg v.vendor_id m.category
        else 0)).sum ≤ maxPoolPrice vendors m.category * m.quantity := by
    intro m hm
    have hM0 : 0 ≤ maxPoolPrice vendors m.category := maxPoolPrice_nonneg vendors m.category
    have hcv : ∀ v : Vendor, suppliesCat v m.category = true → m.category ∈ varCats mats v := by
      intro v hs
      rw [varCats]
      refine List.mem_filter.mpr ⟨?_, hs⟩
      rw [List.mem_dedup]
      exact List.mem_map_of_mem _ hm
    have c1 : ((vendors.filter (eligibleVendor mlt)).map (fun v =>
        if suppliesCat v m.category then
          priceOf v m.category * asg v.vendor_id m.category
        else 0)).sum ≤
        ((vendors.filter (eligibleVendor mlt)).map (fun v =>
          if suppliesCat v m.category then
            maxPoolPrice vendors m.category * asg v.vendor_id m.category
          else 0)).sum := by
      refine List.sum_le_sum ?_
      intro v hv
      by_cases hs : suppliesCat v m.category = true
      · rw [if_pos hs, if_pos hs]
        exact mul_le_mul_of_nonneg_right
          (hprice v (List.mem_filter.mp hv).1 m.category hs).2
          (hb2 v hv m.category (hcv v hs)).1
      · rw [if_neg hs, if_neg hs]
    have c2 : ((vendors.filter (eligibleVendor mlt)).map (fun v =>
        if suppliesCat v m.category then
          maxPoolPrice vendors m.category * asg v.vendor_id m.category
        else 0)).sum =
        maxPoolPrice vendors m.category *
        ((vendors.filter (eligibleVendor mlt)).map (fun v =>
          if suppliesCat v m.category then asg v.vendor_id m.category else 0)).sum := by
      have hfun : (fun v : Vendor =>
          if suppliesCat v m.category then
            maxPoolPrice vendors m.category * asg v.vendor_id m.category
          else 0) =
          (fun v : Vendor =>
            maxPoolPrice vendors m.category *
              (if suppliesCat v m.category then asg v.vendor_id m.category else 0)) := by
        funext v
        by_cases hs : suppliesCat v m.category = true
        · rw [if_pos hs, if_pos hs]
        · rw [if_neg hs, if_neg hs, mul_zero]
      rw [hfun, List.sum_map_mul_left]
    have hff : (vendors.filter (eligibleVendor mlt)).filter
          (fun v => suppliesCat v m.category) =
        vendors.filter (fun v => eligibleVendor mlt v && suppliesCat v m.category) := by
      rw [List.filter_filter]
      refine List.filter_congr ?_
      intro x hx
      exact Bool.and_comm _ _
    have c3 : ((vendors.filter (eligibleVendor mlt)).map (fun v =>
        if suppliesCat v m.category then asg v.vendor_id m.category else 0)).sum =
        categorySupply mlt vendors asg m.category := by
      rw [← sum_map_filter_eq_sum_ite, categorySupply, ← hff]
    rw [demandOK, List.all_eq_true] at hd
    have hdm := hd m hm
    rw [Bool.or_eq_true] at hdm
    cases hdm with
    | inl hempty =>
      have hnil : vendors.filter
          (fun v => eligibleVendor mlt v && suppliesCat v m.category) = [] :=
        List.isEmpty_iff.mp hempty
      have hzero : categorySupply mlt vendors asg m.category = 0 := by
        rw [categorySupply, hnil]
        rfl
      rw [c2, c3, hzero, mul_zero] at c1
      exact le_trans c1 (mul_nonneg hM0 (hq m hm))
    | inr heq =>
      have hcs : categorySupply mlt vendors asg m.category = m.quantity :=
        of_decide_eq_true heq
      calc ((vendors.filter (eligibleVendor mlt)).map (fun v =>
              if suppliesCat v m.category then
                priceOf v m.category * asg v.vendor_id m.category
              else 0)).sum
          ≤ _ := c1
        _ = maxPoolPrice vendors m.category * m.quantity := by rw [c2, c3, hcs]
  calc total_cost_actual mlt mats vendors asg
      ≤ modelCost mlt mats vendors asg := hA
    _ = _ := hB
    _ ≤ (mats.map (fun m => maxPoolPrice vendors m.category * m.quantity)).sum :=
        List.sum_le_sum hC
    _ = naive_cost_calc mats vendors := rfl


/-- C6: for every request obeying the data model of the spec (non-negative
prices and quantities, distinct request categories), whenever the solve
returns an Optimal result whose assignment satisfies the emitted constraints,
the summary obeys naive_cost >= total_cost: the rounding applied to both
fields is monotone and the unrounded retained cost is bounded by the
unrounded baseline. -/
theorem C6_naive_ge_total (mats : List MaterialReq) (vendors : List Vendor)
    (budget : ℚ) (mlt : Int) (asg : String → String → ℚ) (r : AllocResult) (s : Summary)
    (hq : ∀ m ∈ mats, 0 ≤ m.quantity)
    (hp : ∀ v ∈ vendors, ∀ pr ∈ v.prices, 0 ≤ pr.2)
    (hnd : (mats.map (fun m => m.category)).Nodup)
    (hsat : satisfies mats vendors budget mlt asg = true)
    (hr : optimize_vendor_allocation mats vendors budget mlt (SolveOutcome.optimal asg) =
      Except.ok r)
    (hs : r.summary = some s) :
    s.total_cost ≤ s.naive_cost := by
  obtain ⟨-, rfl⟩ := optimize_optimal_ok mats vendors budget mlt asg r hr
  injection hs with hs2
  rw [← hs2]
  exact round2_mono (total_le_naive mats vendors budget mlt asg hq hp hnd hsat)


/-- Witness for C6 at the concrete solve resVA5_eq. -/
theorem C6_witness : sumVA5.total_cost ≤ sumVA5.naive_cost :=
  C6_naive_ge_total [steelQ 5] [vendA] 100 30 constFive resVA5 sumVA5
    (by norm_num [steelQ])
    (by norm_num [vendA])
    (by norm_num [steelQ])
    (by norm_num [satisfies, boundsOK, demandOK, modelCost, categorySupply, varCats,
      suppliesCat, eligibleVendor, priceOf, constFive, steelQ, vendA])
    resVA5_eq rfl


/-- Witness for C8 at the concrete solve resVA5_eq. -/
theorem C8_witness :
    vendor_unavailability_simulation [steelQ 5] [vendA] 100 30 []
        (SolveOutcome.optimal constFive) =
      Except.ok
        { result := resVA5
          simulation_info :=
            { unavailable_vendors := []
              total_vendors_in_pool := List.length [vendA]
              available_vendors := (List.filter (fun v => v.available) [vendA]).length } } ∧
    optimize_allocation [steelQ 5] [vendA] 100 30 (SolveOutcome.optimal constFive) =
      Except.ok resVA5 :=
  C8_empty_disable_matches_direct [steelQ 5] [vendA] 100 30
    (SolveOutcome.optimal constFive) resVA5 (by simp) resVA5_eq


/-- Witness for C9 at a concrete input: feasibility at budget 50 transfers to
budget 100. -/
theorem C9_witness :
    satisfies [steelQ 4] [vendA] 100 30 constFour = true :=
  C9_budget_monotone [steelQ 4] [vendA] 30 50 100 constFour (by norm_num)
    (by norm_num [satisfies, boundsOK, demandOK, modelCost, categorySupply, varCats,
      suppliesCat, eligibleVendor, priceOf, constFour, steelQ, vendA])

